import Mathlib

/-!
Shallow embedding of src/scripts/export-transactions.py (class TransactionExporter).

The script runs three steps: initiate_export (POST, extract exportId from the
JSON body), poll_for_completion (a loop of up to max_attempts status queries
with a fixed sleep between non-terminal attempts), and download_file (streamed
GET, deleting the destination file when a transport error interrupts it).
run sequences the three and exits 1 on any exception, 0 otherwise.

The embedding abstracts the network as an environment: the job-creation
response, the status response for each attempt number, and the behaviour of
the one download. Sleeps are counted as delay events; the local filesystem is
an association list from filename to the number of bytes in the file.
-/

namespace ExportTransactions

/-- A status-query JSON body, as the code reads it: status.get("status") and
status.get("url"), each absent when the key is missing. -/
structure StatusResponse where
  status : Option String
  url : Option String
deriving Repr, DecidableEq

/-- Outcome of one check_export_status call: a parsed JSON body, or an
exception (transport error, HTTP error status, malformed body). -/
inductive QueryResult where
  | ok (resp : StatusResponse)
  | err (e : String)
deriving Repr, DecidableEq

/-- How poll_for_completion terminates: return of status.get("url"),
the "Export failed" exception, the "did not complete within max_attempts"
exception, or a re-raised transient error from the final attempt. -/
inductive PollResult where
  | success (url : Option String)
  | exportFailed
  | pollTimeout
  | transientErr (e : String)
deriving Repr, DecidableEq

/-- The body of poll_for_completion, from src/scripts/export-transactions.py
lines 73-97. First argument gives the status response of each attempt
(attempts are numbered from 1 as in the Python range(1, max_attempts + 1));
second is the number of remaining loop iterations including the current one,
so the current iteration is the final attempt exactly when it is 1; third is
the current attempt number. Returns the poll outcome together with the number
of status queries made and the number of sleeps performed. The Python raise
of Exception("Export failed") on a "failed" status sits inside the try block,
so the blanket except catches it: like a transient error, it is re-raised
only on the final attempt and otherwise causes a sleep and a retry. -/
def pollAux (queries : Nat → QueryResult) : Nat → Nat → PollResult × Nat × Nat
  | 0, _ => (PollResult.pollTimeout, 0, 0)
  | rem + 1, attempt =>
    match queries attempt with
    | QueryResult.ok s =>
      if s.status = some "succeeded" then
        (PollResult.success s.url, 1, 0)
      else if s.status = some "failed" then
        if rem = 0 then
          (PollResult.exportFailed, 1, 0)
        else
          let r := pollAux queries rem (attempt + 1)
          (r.1, r.2.1 + 1, r.2.2 + 1)
      else
        let r := pollAux queries rem (attempt + 1)
        (r.1, r.2.1 + 1, r.2.2 + 1)
    | QueryResult.err e =>
      if rem = 0 then
        (PollResult.transientErr e, 1, 0)
      else
        let r := pollAux queries rem (attempt + 1)
        (r.1, r.2.1 + 1, r.2.2 + 1)

/-- poll_for_completion(export_id, max_attempts): run the loop from attempt 1
with the full budget. -/
def poll_for_completion (queries : Nat → QueryResult) (max_attempts : Nat) :
    PollResult × Nat × Nat :=
  pollAux queries max_attempts 1

/-- The default max_attempts=60 of poll_for_completion, used by run. -/
def defaultMaxAttempts : Nat := 60

/-- The local filesystem: filenames with the byte count of each file. -/
abbrev Fs : Type := List (String × Nat)

/-- os.path.exists / reading a file: the size of the named file, if present. -/
def fsLookup (name : String) : Fs → Option Nat
  | [] => none
  | (n, sz) :: rest => if n = name then some sz else fsLookup name rest

/-- os.remove when the file may be absent: drop every entry of that name. -/
def fsErase (name : String) : Fs → Fs
  | [] => []
  | (n, sz) :: rest =>
    if n = name then fsErase name rest else (n, sz) :: fsErase name rest

/-- open(name, 'wb') followed by writes totalling size bytes. -/
def fsSet (name : String) (size : Nat) (fs : Fs) : Fs :=
  (name, size) :: fsErase name fs

/-- Behaviour of the one streamed GET of download_file: a RequestException
before the body is opened (connection error or raise_for_status), a
RequestException after `written` bytes reached the file, an OSError from a
local write after `written` bytes, or a complete body of `size` bytes. -/
inductive DownloadBehavior where
  | preOpenErr (e : String)
  | midStreamErr (written : Nat) (e : String)
  | writeOSErr (written : Nat) (e : String)
  | ok (size : Nat)
deriving Repr, DecidableEq

/-- The exception escaping download_file: a re-raised RequestException
(after cleanup), or an uncaught local OSError. -/
inductive DlError where
  | downloadFailed (e : String)
  | osError (e : String)
deriving Repr, DecidableEq

/-- download_file(url, filename), lines 99-121. On a RequestException the
except block removes the destination file when it exists and re-raises; an
OSError from the write loop is not a RequestException, so it propagates with
no cleanup. The url argument is carried only to record what run passes. -/
def download_file (beh : DownloadBehavior) (url : Option String)
    (filename : String) (fs : Fs) : Except DlError String × Fs :=
  match beh with
  | DownloadBehavior.preOpenErr e =>
    (Except.error (DlError.downloadFailed e), fsErase filename fs)
  | DownloadBehavior.midStreamErr written e =>
    (Except.error (DlError.downloadFailed e),
      fsErase filename (fsSet filename written fs))
  | DownloadBehavior.writeOSErr written e =>
    (Except.error (DlError.osError e), fsSet filename written fs)
  | DownloadBehavior.ok size =>
    (Except.ok filename, fsSet filename size fs)

/-- Outcome of the job-creation POST: a transport error or HTTP error status
(RequestException), or an HTTP success with a parsed JSON object body. -/
inductive CreateResult where
  | transportErr (e : String)
  | ok (body : List (String × String))

/-- Key lookup in a JSON object, as the Python `"exportId" in data` and
data["exportId"]. -/
def jsonLookup (key : String) : List (String × String) → Option String
  | [] => none
  | (k, v) :: rest => if k = key then some v else jsonLookup key rest

/-- The exception escaping initiate_export: a re-raised RequestException, or
the Exception("Failed to initiate export: ...") on a body with no exportId. -/
inductive InitError where
  | transport (e : String)
  | missingId (body : List (String × String))

/-- initiate_export, lines 23-54: one POST; on HTTP success return
data["exportId"] if present, otherwise raise; a RequestException is printed
and re-raised. -/
def initiate_export (resp : CreateResult) : Except InitError String :=
  match resp with
  | CreateResult.transportErr e => Except.error (InitError.transport e)
  | CreateResult.ok body =>
    match jsonLookup "exportId" body with
    | some id => Except.ok id
    | none => Except.error (InitError.missingId body)

/-- The spec names for run-terminating failures: RequestFailed covers every
initiate_export failure, ExportFailed and PollTimeout the poll outcomes,
DownloadFailed a transport failure of the download; a transient poll error
re-raised from the final attempt and a local OSError propagate as they are. -/
inductive RunError where
  | requestFailed
  | exportFailed
  | pollTimeout
  | transientErr (e : String)
  | downloadFailed (e : String)
  | osError (e : String)
deriving Repr, DecidableEq

/-- The remote service and local I/O as run observes them: the creation
response, the status response of each attempt, and the download behaviour. -/
structure Env where
  createResp : CreateResult
  statusResp : Nat → QueryResult
  download : DownloadBehavior

/-- What a whole run did: the process exit code, the failure that ended it
(none on success), the final filesystem, how many status queries were made,
and each download_file invocation as the (url, filename) pair passed to it. -/
structure RunResult where
  exitCode : Nat
  err : Option RunError
  fs : Fs
  statusCalls : Nat
  downloadCalls : List (Option String × String)

/-- run, lines 123-149: initiate_export, then poll_for_completion with the
default budget, then download_file to transactions_<exportId>.zip; any
exception is caught and the process exits 1, otherwise it exits 0. -/
def run (env : Env) (fs : Fs) : RunResult :=
  match initiate_export env.createResp with
  | Except.error _ =>
    { exitCode := 1, err := some RunError.requestFailed, fs := fs,
      statusCalls := 0, downloadCalls := [] }
  | Except.ok exportId =>
    let p := poll_for_completion env.statusResp defaultMaxAttempts
    match p.1 with
    | PollResult.success url =>
      let filename := "transactions_" ++ exportId ++ ".zip"
      let d := download_file env.download url filename fs
      match d.1 with
      | Except.ok _ =>
        { exitCode := 0, err := none, fs := d.2,
          statusCalls := p.2.1, downloadCalls := [(url, filename)] }
      | Except.error (DlError.downloadFailed e) =>
        { exitCode := 1, err := some (RunError.downloadFailed e), fs := d.2,
          statusCalls := p.2.1, downloadCalls := [(url, filename)] }
      | Except.error (DlError.osError e) =>
        { exitCode := 1, err := some (RunError.osError e), fs := d.2,
          statusCalls := p.2.1, downloadCalls := [(url, filename)] }
    | PollResult.exportFailed =>
      { exitCode := 1, err := some RunError.exportFailed, fs := fs,
        statusCalls := p.2.1, downloadCalls := [] }
    | PollResult.pollTimeout =>
      { exitCode := 1, err := some RunError.pollTimeout, fs := fs,
        statusCalls := p.2.1, downloadCalls := [] }
    | PollResult.transientErr e =>
      { exitCode := 1, err := some (RunError.transientErr e), fs := fs,
        statusCalls := p.2.1, downloadCalls := [] }

/-- One loop iteration on a response whose status is succeeded returns the
url field at once. -/
theorem pollAux_succeeded (q : Nat → QueryResult) (rem attempt : Nat)
    (s : StatusResponse) (hq : q attempt = QueryResult.ok s)
    (hs : s.status = some "succeeded") :
    pollAux q (rem + 1) attempt = (PollResult.success s.url, 1, 0) := by
  simp only [pollAux, hq]
  rw [if_pos hs]

/-- One loop iteration on a response whose status is neither succeeded nor
failed sleeps and continues with one fewer remaining attempt. -/
theorem pollAux_nonterminal (q : Nat → QueryResult) (rem attempt : Nat)
    (s : StatusResponse) (hq : q attempt = QueryResult.ok s)
    (hs1 : s.status ≠ some "succeeded") (hs2 : s.status ≠ some "failed") :
    pollAux q (rem + 1) attempt =
      ((pollAux q rem (attempt + 1)).1,
       (pollAux q rem (attempt + 1)).2.1 + 1,
       (pollAux q rem (attempt + 1)).2.2 + 1) := by
  simp only [pollAux, hq]
  rw [if_neg hs1, if_neg hs2]

/-- One non-final loop iteration on a response whose status is failed raises
Exception("Export failed"), which the blanket except catches: the loop sleeps
and continues with one fewer remaining attempt. -/
theorem pollAux_failed_nonfinal (q : Nat → QueryResult) (rem attempt : Nat)
    (s : StatusResponse) (hq : q attempt = QueryResult.ok s)
    (hs : s.status = some "failed") (hrem : 0 < rem) :
    pollAux q (rem + 1) attempt =
      ((pollAux q rem (attempt + 1)).1,
       (pollAux q rem (attempt + 1)).2.1 + 1,
       (pollAux q rem (attempt + 1)).2.2 + 1) := by
  have hs1 : s.status ≠ some "succeeded" := by rw [hs]; decide
  simp only [pollAux, hq]
  rw [if_neg hs1, if_pos hs, if_neg (Nat.pos_iff_ne_zero.mp hrem)]

/-- The final loop iteration on a response whose status is failed re-raises
the caught Exception("Export failed"). -/
theorem pollAux_failed_final (q : Nat → QueryResult) (attempt : Nat)
    (s : StatusResponse) (hq : q attempt = QueryResult.ok s)
    (hs : s.status = some "failed") :
    pollAux q 1 attempt = (PollResult.exportFailed, 1, 0) := by
  have hs1 : s.status ≠ some "succeeded" := by rw [hs]; decide
  simp only [pollAux, hq]
  rw [if_neg hs1, if_pos hs]
  simp

/-- One non-final loop iteration whose status query raises catches the
error, sleeps, and continues with one fewer remaining attempt. -/
theorem pollAux_err_nonfinal (q : Nat → QueryResult) (rem attempt : Nat)
    (e : String) (hq : q attempt = QueryResult.err e) (hrem : 0 < rem) :
    pollAux q (rem + 1) attempt =
      ((pollAux q rem (attempt + 1)).1,
       (pollAux q rem (attempt + 1)).2.1 + 1,
       (pollAux q rem (attempt + 1)).2.2 + 1) := by
  simp only [pollAux, hq]
  rw [if_neg (Nat.pos_iff_ne_zero.mp hrem)]

/-- The final loop iteration whose status query raises re-raises the error. -/
theorem pollAux_err_final (q : Nat → QueryResult) (attempt : Nat)
    (e : String) (hq : q attempt = QueryResult.err e) :
    pollAux q 1 attempt = (PollResult.transientErr e, 1, 0) := by
  simp only [pollAux, hq]
  simp

/-- After erasing a name no entry of that name remains. -/
theorem fsLookup_fsErase (name : String) (fs : Fs) :
    fsLookup name (fsErase name fs) = none := by
  induction fs with
  | nil => rfl
  | cons hd tl ih =>
    obtain ⟨n, sz⟩ := hd
    by_cases h : n = name
    · simpa [fsErase, h] using ih
    · simpa [fsErase, fsLookup, h] using ih

/-- A freshly written file is present with its byte count. -/
theorem fsLookup_fsSet (name : String) (size : Nat) (fs : Fs) :
    fsLookup name (fsSet name size fs) = some size := by
  simp [fsSet, fsLookup]

/-- C1: the claim says a `failed` status on any attempt terminates the poll
immediately with ExportFailed, with no further queries and no further delays.
The code disagrees: the raise of Exception("Export failed") is caught by the
blanket except of the same loop, so with budget 3 and every attempt reporting
`failed` (status `failed` is terminal, so it persists) the poller performs 3
status queries and 2 sleeps before the exception finally propagates from the
last attempt, instead of stopping after 1 query and 0 sleeps. -/
theorem c1_failed_status_is_retried :
    poll_for_completion (fun _ => QueryResult.ok ⟨some "failed", none⟩) 3
      = (PollResult.exportFailed, 3, 2) := by
  decide

/-- C2: if every status query reports `running`, the poller with budget n
makes exactly n queries (sleeping after each) and fails with PollTimeout. -/
theorem c2_all_running_times_out (q : Nat → QueryResult) (n : Nat)
    (h : ∀ k, ∃ u, q k = QueryResult.ok ⟨some "running", u⟩) :
    poll_for_completion q n = (PollResult.pollTimeout, n, n) := by
  suffices h2 : ∀ rem attempt,
      pollAux q rem attempt = (PollResult.pollTimeout, rem, rem) from h2 n 1
  intro rem
  induction rem with
  | zero => intro attempt; rfl
  | succ m ih =>
    intro attempt
    obtain ⟨u, hu⟩ := h attempt
    rw [pollAux_nonterminal q m attempt ⟨some "running", u⟩ hu
      (by simp) (by simp), ih (attempt + 1)]

/-- C2 witness: with budget 3 and a constant `running` response the poller
times out after exactly 3 queries. -/
theorem c2_witness :
    poll_for_completion (fun _ => QueryResult.ok ⟨some "running", none⟩) 3
      = (PollResult.pollTimeout, 3, 3) :=
  c2_all_running_times_out _ 3 (fun _ => ⟨none, rfl⟩)

/-- C3: on the status sequence running, running, succeeded-with-url-u and any
budget of at least 3, the poller returns u after exactly 3 queries and 2
sleeps. -/
theorem c3_running_running_succeeded (q : Nat → QueryResult) (n : Nat)
    (u1 u2 : Option String) (u : String) (hn : 3 ≤ n)
    (h1 : q 1 = QueryResult.ok ⟨some "running", u1⟩)
    (h2 : q 2 = QueryResult.ok ⟨some "running", u2⟩)
    (h3 : q 3 = QueryResult.ok ⟨some "succeeded", some u⟩) :
    poll_for_completion q n = (PollResult.success (some u), 3, 2) := by
  obtain ⟨m, rfl⟩ : ∃ m, n = m + 1 + 1 + 1 := ⟨n - 3, by omega⟩
  rw [poll_for_completion,
    pollAux_nonterminal q (m + 1 + 1) 1 ⟨some "running", u1⟩ h1
      (by simp) (by simp),
    pollAux_nonterminal q (m + 1) 2 ⟨some "running", u2⟩ h2
      (by simp) (by simp),
    pollAux_succeeded q m 3 ⟨some "succeeded", some u⟩ h3 rfl]

/-- C3 witness status sequence: succeeded with a url on attempt 3, running
before that. -/
def c3q : Nat → QueryResult := fun k =>
  if k = 3 then QueryResult.ok ⟨some "succeeded", some "https://x/y.zip"⟩
  else QueryResult.ok ⟨some "running", none⟩

/-- C3 witness: with budget 5 the witness sequence yields the url after
exactly 3 queries and 2 sleeps. -/
theorem c3_witness :
    poll_for_completion c3q 5
      = (PollResult.success (some "https://x/y.zip"), 3, 2) :=
  c3_running_running_succeeded c3q 5 none none "https://x/y.zip"
    (by decide) rfl rfl rfl

/-- C6: a transient status-query error on a non-final attempt is caught: the
poller sleeps and goes on with one attempt less of budget (the failed attempt
is consumed); on the final attempt the error propagates out of the poller. -/
theorem c6_transient_error_retried (q : Nat → QueryResult) (rem attempt : Nat)
    (e : String) (hq : q attempt = QueryResult.err e) :
    (0 < rem →
      pollAux q (rem + 1) attempt =
        ((pollAux q rem (attempt + 1)).1,
         (pollAux q rem (attempt + 1)).2.1 + 1,
         (pollAux q rem (attempt + 1)).2.2 + 1)) ∧
    pollAux q 1 attempt = (PollResult.transientErr e, 1, 0) :=
  ⟨fun h => pollAux_err_nonfinal q rem attempt e hq h,
   pollAux_err_final q attempt e hq⟩

/-- C6 witness: a raising query on attempt 1 of 2 is retried with the budget
decremented; on a final attempt the error propagates. -/
theorem c6_witness :
    (pollAux (fun _ => QueryResult.err "boom") 2 1 =
      ((pollAux (fun _ => QueryResult.err "boom") 1 2).1,
       (pollAux (fun _ => QueryResult.err "boom") 1 2).2.1 + 1,
       (pollAux (fun _ => QueryResult.err "boom") 1 2).2.2 + 1)) ∧
    pollAux (fun _ => QueryResult.err "boom") 1 1 =
      (PollResult.transientErr "boom", 1, 0) :=
  ⟨(c6_transient_error_retried (fun _ => QueryResult.err "boom") 1 1 "boom"
      rfl).1 (by decide),
   (c6_transient_error_retried (fun _ => QueryResult.err "boom") 1 1 "boom"
      rfl).2⟩

/-- C4: a download interrupted by a transport failure, whether before the
body opens or after some bytes reached the file, propagates DownloadFailed
and leaves no destination file on disk. -/
theorem c4_transport_failure_leaves_no_file (url : Option String)
    (filename e : String) (written : Nat) (fs : Fs) :
    (download_file (DownloadBehavior.preOpenErr e) url filename fs).1
        = Except.error (DlError.downloadFailed e) ∧
    fsLookup filename
        (download_file (DownloadBehavior.preOpenErr e) url filename fs).2
      = none ∧
    (download_file (DownloadBehavior.midStreamErr written e) url filename
        fs).1
      = Except.error (DlError.downloadFailed e) ∧
    fsLookup filename
        (download_file (DownloadBehavior.midStreamErr written e) url filename
          fs).2
      = none := by
  refine ⟨rfl, ?_, rfl, ?_⟩ <;> simp [download_file, fsLookup_fsErase]

/-- C8: an OSError from the local write loop is not a RequestException, so
the cleanup branch of download_file never runs: the error propagates and the
partially written destination file stays on disk with its written bytes. -/
theorem c8_os_error_leaves_partial_file (url : Option String)
    (filename e : String) (written : Nat) (fs : Fs) :
    download_file (DownloadBehavior.writeOSErr written e) url filename fs
        = (Except.error (DlError.osError e), fsSet filename written fs) ∧
    fsLookup filename
        (download_file (DownloadBehavior.writeOSErr written e) url filename
          fs).2
      = some written :=
  ⟨rfl, by simp [download_file, fsLookup_fsSet]⟩

/-- C5: an HTTP-success creation response whose JSON body has no exportId
field makes the run fail with RequestFailed after zero status queries and
zero download_file invocations, the filesystem untouched. -/
theorem c5_missing_export_id (body : List (String × String))
    (sq : Nat → QueryResult) (dl : DownloadBehavior) (fs : Fs)
    (h : jsonLookup "exportId" body = none) :
    run ⟨CreateResult.ok body, sq, dl⟩ fs
      = { exitCode := 1, err := some RunError.requestFailed, fs := fs,
          statusCalls := 0, downloadCalls := [] } := by
  simp [run, initiate_export, h]

/-- C5 witness: a creation body carrying only a status key fails the run
with RequestFailed, zero status queries and zero downloads. -/
theorem c5_witness :
    run ⟨CreateResult.ok [("status", "ok")], fun _ => QueryResult.err "x",
        DownloadBehavior.ok 0⟩ []
      = { exitCode := 1, err := some RunError.requestFailed, fs := [],
          statusCalls := 0, downloadCalls := [] } :=
  c5_missing_export_id [("status", "ok")] (fun _ => QueryResult.err "x")
    (DownloadBehavior.ok 0) [] rfl

/-- C9: a succeeded status response with no url field makes the poll return
an absent url as a success after one query, and run then invokes
download_file with that absent url and the transactions_exportId.zip name. -/
theorem c9_succeeded_without_url (q : Nat → QueryResult) (rem attempt : Nat)
    (body : List (String × String)) (id : String) (dl : DownloadBehavior)
    (fs : Fs)
    (hq : q attempt = QueryResult.ok ⟨some "succeeded", none⟩)
    (h1 : q 1 = QueryResult.ok ⟨some "succeeded", none⟩)
    (hid : jsonLookup "exportId" body = some id) :
    pollAux q (rem + 1) attempt = (PollResult.success none, 1, 0) ∧
    (run ⟨CreateResult.ok body, q, dl⟩ fs).downloadCalls
      = [(none, "transactions_" ++ id ++ ".zip")] := by
  constructor
  · exact pollAux_succeeded q rem attempt ⟨some "succeeded", none⟩ hq rfl
  · have hp : (poll_for_completion q defaultMaxAttempts).1
        = PollResult.success none := by
      have h60 : defaultMaxAttempts = 59 + 1 := rfl
      rw [poll_for_completion, h60,
        pollAux_succeeded q 59 1 ⟨some "succeeded", none⟩ h1 rfl]
    cases dl <;> simp [run, initiate_export, hid, hp, download_file]

/-- C9 witness: on a constant succeeded-without-url status response the poll
succeeds with an absent url after one query, and the run with exportId
abc123 passes that absent url to download_file. -/
theorem c9_witness :
    pollAux (fun _ => QueryResult.ok ⟨some "succeeded", none⟩) 60 1
      = (PollResult.success none, 1, 0) ∧
    (run ⟨CreateResult.ok [("exportId", "abc123")],
          fun _ => QueryResult.ok ⟨some "succeeded", none⟩,
          DownloadBehavior.ok 7⟩ []).downloadCalls
      = [(none, "transactions_abc123.zip")] := by
  have h := c9_succeeded_without_url
    (fun _ => QueryResult.ok ⟨some "succeeded", none⟩) 59 1
    [("exportId", "abc123")] "abc123" (DownloadBehavior.ok 7) [] rfl rfl rfl
  exact ⟨h.1, h.2⟩

/-- C10: a run that fails with RequestFailed, ExportFailed, or PollTimeout
never reaches the download step: the filesystem comes back unchanged and
download_file is never invoked. -/
theorem c10_no_artifact_before_download (env : Env) (fs : Fs)
    (h : (run env fs).err = some RunError.requestFailed ∨
         (run env fs).err = some RunError.exportFailed ∨
         (run env fs).err = some RunError.pollTimeout) :
    (run env fs).fs = fs ∧ (run env fs).downloadCalls = [] := by
  obtain ⟨cr, sq, dl⟩ := env
  cases hi : initiate_export cr with
  | error e => simp [run, hi]
  | ok id0 =>
    cases hp : (poll_for_completion sq defaultMaxAttempts).1 with
    | success u =>
      exfalso
      cases dl <;> simp [run, hi, hp, download_file] at h
    | exportFailed => simp [run, hi, hp]
    | pollTimeout => simp [run, hi, hp]
    | transientErr e =>
      exfalso
      simp [run, hi, hp] at h

/-- C10 witness: a run whose creation request fails leaves a pre-existing
file untouched and downloads nothing. -/
theorem c10_witness :
    (run ⟨CreateResult.transportErr "refused", fun _ => QueryResult.err "x",
          DownloadBehavior.ok 0⟩ [("keep.txt", 5)]).fs = [("keep.txt", 5)] ∧
    (run ⟨CreateResult.transportErr "refused", fun _ => QueryResult.err "x",
          DownloadBehavior.ok 0⟩ [("keep.txt", 5)]).downloadCalls = [] :=
  c10_no_artifact_before_download
    ⟨CreateResult.transportErr "refused", fun _ => QueryResult.err "x",
     DownloadBehavior.ok 0⟩ [("keep.txt", 5)] (Or.inl rfl)

/-- C7: the run exits 0 exactly when creation yields an exportId, the poll
ends in success, and the download completes; the exit code is always 0 or 1
(1 on any failure); and a 0 exit leaves the file
transactions_exportId.zip on disk. -/
theorem c7_exit_code (env : Env) (fs : Fs) :
    ((run env fs).exitCode = 0 ∨ (run env fs).exitCode = 1) ∧
    ((run env fs).exitCode = 0 ↔
      (∃ id, initiate_export env.createResp = Except.ok id) ∧
      (∃ u, (poll_for_completion env.statusResp defaultMaxAttempts).1
              = PollResult.success u) ∧
      (∃ size, env.download = DownloadBehavior.ok size)) ∧
    (∀ id, initiate_export env.createResp = Except.ok id →
      (run env fs).exitCode = 0 →
      ∃ size, fsLookup ("transactions_" ++ id ++ ".zip") (run env fs).fs
                = some size) := by
  obtain ⟨cr, sq, dl⟩ := env
  cases hi : initiate_export cr with
  | error e => simp [run, hi]
  | ok id0 =>
    cases hp : (poll_for_completion sq defaultMaxAttempts).1 <;>
      cases dl <;>
      simp [run, hi, hp, download_file, fsLookup_fsSet]

/-- C7 witness end-to-end environment: creation returns exportId abc123, the
first poll succeeds with a url, the download writes 10 bytes. -/
def env0 : Env :=
  ⟨CreateResult.ok [("exportId", "abc123")],
   fun _ => QueryResult.ok ⟨some "succeeded", some "https://x/y.zip"⟩,
   DownloadBehavior.ok 10⟩

/-- C7 witness: the end-to-end success scenario exits 0 and the file
transactions_abc123.zip exists afterwards. -/
theorem c7_witness :
    (run env0 []).exitCode = 0 ∧
    ∃ size, fsLookup "transactions_abc123.zip" (run env0 []).fs
              = some size := by
  have h := c7_exit_code env0 []
  have h0 : (run env0 []).exitCode = 0 :=
    h.2.1.mpr ⟨⟨"abc123", rfl⟩, ⟨some "https://x/y.zip", by rfl⟩, ⟨10, rfl⟩⟩
  exact ⟨h0, h.2.2 "abc123" rfl h0⟩

end ExportTransactions
